import Mathlib

/-!
Verification of `src/docker/docker-config-analysis.py` (DockerConfigAnalyzer).

The script is a one-shot static analyzer: it reads compose files, Dockerfiles,
monitoring configs and env files from a project tree, accumulates findings into
a single result aggregate, derives recommendations, writes the aggregate as
JSON and exits 1 exactly when default secrets were detected.

This file gives a shallow embedding: the project tree is a `ProjectState`
record (file contents resp. parse results for the fixed paths the script
inspects), each `analyze_*` phase of the Python class becomes a total Lean
function on an `AnalysisResult` record, and YAML/JSON values are modelled by
the inductive `JValue` (strings, ints, bools, null, arrays, string-keyed
objects - the value space the analyzed config files live in).

String primitives used by the script (`str.strip`, `str.split`,
`str.startswith`, the `in` substring test) are modelled by structurally
recursive functions over `String.data`, so every definition evaluates inside
the kernel.
-/

/-- Model of `str.strip()` on the leading side: drop leading whitespace. -/
def dropLeadingWs (l : List Char) : List Char := l.dropWhile Char.isWhitespace

/-- Model of Python `str.strip()`: remove leading and trailing whitespace. -/
def pyStrip (s : String) : String :=
  ⟨(dropLeadingWs (dropLeadingWs s.data).reverse).reverse⟩

/-- Model of Python `str.startswith(pat)`. -/
def pyStartsWith (s pat : String) : Bool := pat.data.isPrefixOf s.data

/-- Contiguous-sublist test on lists, used to model Python's `in` on strings. -/
def subListOf (pat : List Char) : List Char → Bool
  | [] => pat.isEmpty
  | a :: rest => pat.isPrefixOf (a :: rest) || subListOf pat rest

/-- Model of Python `pat in s` (substring containment). -/
def pyContains (s pat : String) : Bool := subListOf pat.data s.data

/-- Split a character list at every occurrence of `c` (model of `str.split(c)`). -/
def splitOnChar (c : Char) : List Char → List (List Char)
  | [] => [[]]
  | a :: rest =>
    match splitOnChar c rest with
    | [] => if a = c then [[], []] else [[a]]
    | h :: t => if a = c then [] :: h :: t else (a :: h) :: t

/-- Model of Python `content.split('\n')`. -/
def pySplitLines (s : String) : List String :=
  (splitOnChar (Char.ofNat 10) s.data).map (fun l => ⟨l⟩)

/-- Split a character list on whitespace runs, keeping the pieces in order. -/
def splitWs : List Char → List (List Char)
  | [] => [[]]
  | a :: rest =>
    match splitWs rest with
    | [] => if a.isWhitespace then [[], []] else [[a]]
    | h :: t => if a.isWhitespace then [] :: h :: t else (a :: h) :: t

/-- Model of Python `str.split()` with no argument: split on whitespace runs
and discard empty pieces. -/
def pySplit (s : String) : List String :=
  ((splitWs s.data).filter (fun l => !l.isEmpty)).map (fun l => ⟨l⟩)

/-- Mapping keys of a YAML/JSON mapping: `yaml.safe_load` hashes strings,
ints, booleans and `None` as dict keys, and the script stores such keys
unchanged (service names, volume names); `json.dump` later stringifies every
non-string key. Float keys share the fate of float values and stay outside
the embedding. -/
inductive JKey where
  | str (s : String)
  | int (n : Int)
  | bool (b : Bool)
  | null
deriving DecidableEq

/-- YAML/JSON value space of the analyzed config files: null, booleans,
integers, strings, arrays, and objects whose keys are arbitrary `JKey`s
(so non-string dict keys reach the aggregate exactly as in Python).
`yaml.safe_load` results and the JSON aggregate written by the script are
both modelled by this type. Float values (NaN in particular) are the one
YAML scalar kind left out: floating point does not translate to this
embedding, and NaN is a second, unmodelled way the dump/load round trip can
fail beside the stringified keys modelled here. -/
inductive JValue where
  | null
  | bool (b : Bool)
  | num (n : Int)
  | str (s : String)
  | arr (elems : List JValue)
  | obj (fields : List (JKey × JValue))

/-- Python truthiness (`bool(v)` / `if v:`) on a YAML value. -/
def JValue.truthy : JValue → Bool
  | .null => false
  | .bool b => b
  | .num n => n != 0
  | .str s => !s.isEmpty
  | .arr xs => !xs.isEmpty
  | .obj kvs => !kvs.isEmpty

/-- Model of Python `d.get(k, default)`: on a dict, look the key up (first
binding) with a default; on any non-dict value raise `AttributeError`. -/
def JValue.getD (v : JValue) (k : String) (d : JValue) : Except String JValue :=
  match v with
  | .obj kvs => .ok (((kvs.find? (fun p => p.1 == JKey.str k)).map Prod.snd).getD d)
  | _ => .error "AttributeError"

/-- Model of Python `d.keys()` (as a list): only dicts have keys. -/
def JValue.keyList : JValue → Except String (List JKey)
  | .obj kvs => .ok (kvs.map Prod.fst)
  | _ => .error "AttributeError"

/-- Model of Python `d.items()`: only dicts have items. -/
def JValue.itemList : JValue → Except String (List (JKey × JValue))
  | .obj kvs => .ok kvs
  | _ => .error "AttributeError"

/-- Model of Python `len(v)`: defined for strings, lists and dicts, a
`TypeError` on other values. -/
def JValue.pyLen : JValue → Except String Nat
  | .str s => .ok s.length
  | .arr xs => .ok xs.length
  | .obj kvs => .ok kvs.length
  | _ => .error "TypeError"

deriving instance DecidableEq for Except

/-- Per-Dockerfile analysis record built by `analyze_dockerfile_content`
(dict keys `stages`, `base_images`, `has_user`, `has_healthcheck`,
`has_expose`, `has_entrypoint`, `security_features`, `optimization_features`). -/
structure DockerfileAnalysis where
  stages : Nat
  base_images : List String
  has_user : Bool
  has_healthcheck : Bool
  has_expose : Bool
  has_entrypoint : Bool
  security_features : List String
  optimization_features : List String
deriving DecidableEq

/-- The initial `analysis` dict of `analyze_dockerfile_content`. -/
def initDockerfileAnalysis : DockerfileAnalysis :=
  ⟨0, [], false, false, false, false, [], []⟩

/-- One iteration of the line loop of `analyze_dockerfile_content`
(source lines 150-182): strip the line, skip blanks and comments, then run
the ordered `if`/`elif` pattern chain. The `FROM ... AS` branch reads
`line.split()[1]`, which raises `IndexError` when the stripped line has a
single whitespace-delimited token; the exception is modelled by `.error`. -/
def processLine (a : DockerfileAnalysis) (line0 : String) :
    Except String DockerfileAnalysis :=
  let line := pyStrip line0
  if line.isEmpty || pyStartsWith line "#" then .ok a
  else if pyStartsWith line "FROM" && pyContains line "AS" then
    match (pySplit line).get? 1 with
    | some base_image =>
      .ok { a with stages := a.stages + 1,
                   base_images := a.base_images ++ [base_image] }
    | none => .error "list index out of range"
  else if pyStartsWith line "FROM" then
    let base_image := if (pySplit line).length > 1
      then ((pySplit line).get? 1).getD "unknown" else "unknown"
    .ok { a with base_images := a.base_images ++ [base_image] }
  else if pyStartsWith line "USER " then
    .ok { a with has_user := true,
                 security_features := a.security_features ++ ["non-root-user"] }
  else if pyStartsWith line "HEALTHCHECK" then
    .ok { a with has_healthcheck := true,
                 security_features := a.security_features ++ ["health-check"] }
  else if pyStartsWith line "EXPOSE" then
    .ok { a with has_expose := true }
  else if pyStartsWith line "ENTRYPOINT" || pyStartsWith line "CMD" then
    .ok { a with has_entrypoint := true }
  else if pyContains line "--mount=type=cache" then
    .ok { a with optimization_features := a.optimization_features ++ ["build-cache"] }
  else if pyContains line "BUILDKIT" then
    .ok { a with optimization_features := a.optimization_features ++ ["buildkit"] }
  else if pyContains line "--platform=" then
    .ok { a with optimization_features := a.optimization_features ++ ["multi-platform"] }
  else .ok a

/-- Run `processLine` over the lines of the file, propagating a raised
exception (the loop body is inside the caller's `try`). -/
def processLines (a : DockerfileAnalysis) :
    List String → Except String DockerfileAnalysis
  | [] => .ok a
  | l :: rest =>
    match processLine a l with
    | .ok a' => processLines a' rest
    | .error e => .error e

/-- Model of `analyze_dockerfile_content` (source lines 136-187): split the
content on newlines, run the line loop, then force `stages` to 1 when no
`FROM ... AS` line was seen but a base image was recorded. -/
def analyze_dockerfile_content (content : String) :
    Except String DockerfileAnalysis :=
  match processLines initDockerfileAnalysis (pySplitLines content) with
  | .error e => .error e
  | .ok a =>
    .ok (if a.stages == 0 && !a.base_images.isEmpty
         then { a with stages := 1 } else a)

example : analyze_dockerfile_content "FROM node:18 AS deps\nFROM node:18 AS build\nFROM alpine" =
    .ok ⟨2, ["node:18", "node:18", "alpine"], false, false, false, false, [], []⟩ := by
  decide

example : analyze_dockerfile_content "FROM alpine\nUSER node" =
    .ok ⟨1, ["alpine"], true, false, false, false, ["non-root-user"], []⟩ := by
  decide

example : analyze_dockerfile_content "FROMAS" = .error "list index out of range" := by
  decide

example : analyze_dockerfile_content "FROM" =
    .ok ⟨1, ["unknown"], false, false, false, false, [], []⟩ := by
  decide

/-- Per-service analysis record built by `analyze_compose_content`
(source lines 86-97). Fields read from arbitrary YAML keep type `JValue`;
presence-only fields are coerced to `Bool` with Python truthiness. -/
structure ServiceAnalysis where
  image : JValue
  build : JValue
  ports : JValue
  volumes : JValue
  environment : Bool
  depends_on : JValue
  healthcheck : Bool
  security_opt : Bool
  deploy : Bool
  restart : JValue

/-- Model of the per-service dict reads of `analyze_compose_content`
(`service_config.get(...)`, source lines 86-97): raises on a non-dict
service config. -/
def analyzeService (sc : JValue) : Except String ServiceAnalysis := do
  let image ← sc.getD "image" .null
  let build ← sc.getD "build" .null
  let ports ← sc.getD "ports" (.arr [])
  let volumes ← sc.getD "volumes" (.arr [])
  let environment ← sc.getD "environment" .null
  let depends_on ← sc.getD "depends_on" (.arr [])
  let healthcheck ← sc.getD "healthcheck" .null
  let security_opt ← sc.getD "security_opt" .null
  let deploy ← sc.getD "deploy" .null
  let restart ← sc.getD "restart" (.str "no")
  return ⟨image, build, ports, volumes, environment.truthy, depends_on,
          healthcheck.truthy, security_opt.truthy, deploy.truthy, restart⟩

/-- Per-compose-file analysis record built by `analyze_compose_content`
(dict keys `services`, `volumes`, `networks`, `has_healthchecks`,
`has_security_opts`, `has_resource_limits`). -/
structure ComposeAnalysis where
  services : List (JKey × ServiceAnalysis)
  volumes : List JKey
  networks : List JKey
  has_healthchecks : Bool
  has_security_opts : Bool
  has_resource_limits : Bool

/-- Model of `analyze_compose_content` (source lines 73-108): extract the
volume and network key lists (guarded by truthiness, as in the conditional
expressions on lines 77-78), then walk the services dict, building the
per-service records and or-accumulating the three file-level flags. Any
attribute error on a non-dict value propagates as the caught exception. -/
def analyze_compose_content (content : JValue) : Except String ComposeAnalysis := do
  let volumesCond ← content.getD "volumes" .null
  let volumes ← if volumesCond.truthy
    then do (← content.getD "volumes" (.obj [])).keyList
    else pure []
  let networksCond ← content.getD "networks" .null
  let networks ← if networksCond.truthy
    then do (← content.getD "networks" (.obj [])).keyList
    else pure []
  let servicesVal ← content.getD "services" (.obj [])
  let services ← servicesVal.itemList
  services.foldlM
    (fun acc p => do
      let sa ← analyzeService p.2
      return { acc with
        services := acc.services ++ [(p.1, sa)],
        has_healthchecks := acc.has_healthchecks || sa.healthcheck,
        has_security_opts := acc.has_security_opts || sa.security_opt,
        has_resource_limits := acc.has_resource_limits || sa.deploy })
    (⟨[], volumes, networks, false, false, false⟩ : ComposeAnalysis)

/-- Prometheus part of the monitoring record: keys `exists` / `scrape_configs`. -/
structure PromAnalysis where
  exists_ : Bool
  scrape_configs : Nat
deriving DecidableEq

/-- Grafana part of the monitoring record: keys `exists` / `dashboards`. -/
structure GrafanaAnalysis where
  exists_ : Bool
  dashboards : Nat
deriving DecidableEq

/-- Alertmanager part of the monitoring record: keys `exists` / `routes`. -/
structure AlertmanagerAnalysis where
  exists_ : Bool
  routes : Nat
deriving DecidableEq

/-- Jaeger part of the monitoring record: key `configured`. -/
structure JaegerAnalysis where
  configured : Bool
deriving DecidableEq

/-- The `monitoring_analysis` record of `analyze_monitoring_config`. -/
structure MonitoringAnalysis where
  prometheus : PromAnalysis
  grafana : GrafanaAnalysis
  alertmanager : AlertmanagerAnalysis
  jaeger : JaegerAnalysis
deriving DecidableEq

/-- Initial `monitoring_analysis` value (source lines 200-205). -/
def initMonitoringAnalysis : MonitoringAnalysis :=
  ⟨⟨false, 0⟩, ⟨false, 0⟩, ⟨false, 0⟩, ⟨false⟩⟩

/-- Per-env-file entry of `security_analysis['environment_files']`: either the
bare `{'exists': False}` record for a missing file, or the five-key record
built on source lines 261-267. -/
inductive EnvFileAnalysis where
  | absent
  | present (default_secrets : List String)
      (has_jwt_secret has_db_password has_redis_password : Bool)
deriving DecidableEq

/-- The `security_analysis` record of `analyze_security_config`
(keys `environment_files`, `secrets_detected`, `security_practices`). -/
structure SecurityAnalysis where
  environment_files : List (String × EnvFileAnalysis)
  secrets_detected : List String
  security_practices : List String
deriving DecidableEq

/-- The `env_analysis` record of `analyze_environment_config`
(key `config_files`, each entry an `{'exists': bool}` record). -/
structure EnvironmentAnalysis where
  config_files : List (String × Bool)
deriving DecidableEq

/-- The shared `self.results` aggregate (source lines 18-25): sub-maps for the
five phases plus the issue and recommendation lists. The compose and
Dockerfile maps are insertion-ordered association lists, as Python dicts are.
The `monitoring`, `security` and `environment` fields start at their record
defaults and are overwritten wholesale by their phases (in Python they start
as missing/empty dict entries with the same final behavior). -/
structure AnalysisResult where
  compose_files : List (String × ComposeAnalysis)
  dockerfiles : List (String × DockerfileAnalysis)
  monitoring : MonitoringAnalysis
  security : SecurityAnalysis
  environment : EnvironmentAnalysis
  issues : List String
  recommendations : List String

/-- The aggregate as initialized in `__init__`. -/
def initResults : AnalysisResult :=
  ⟨[], [], initMonitoringAnalysis, ⟨[], [], []⟩, ⟨[]⟩, [], []⟩

/-- The project tree as seen by the script: for each fixed path it may read,
either the file is absent (`none`), or reading/YAML-parsing it yields an
error (`some (.error e)`, the caught exception text) or a value.
`dockerfiles` lists the regular files matched by the `**/Dockerfile*` glob in
glob order together with their read results; `grafanaDashboardJsonCount` is
the number of `*.json` files in the dashboards directory (0 when the
directory is missing). -/
structure ProjectState where
  composeFile : String → Option (Except String JValue)
  dockerfiles : List (String × Except String String)
  promConfig : Option (Except String JValue)
  grafanaDashboards : Bool
  grafanaDashboardJsonCount : Nat
  grafanaDatasources : Option (Except String JValue)
  alertmanagerExists : Bool
  envFile : String → Option (Except String String)
  configExists : String → Bool

/-- The candidate compose filenames (source lines 47-53). -/
def composeFileNames : List String :=
  ["docker-compose.yml", "docker-compose.prod.yml", "docker-compose.dev.yml",
   "docker-compose.monitoring.yml", "docker/docker-compose.optimized.yml"]

/-- Per-file body of the `analyze_compose_files` loop (source lines 55-71):
an absent file contributes nothing; an existing file contributes either one
entry of the `compose_files` map (parse and analysis both succeed) or one
`Failed to parse ...` issue string. -/
def composeFileStep (fs : ProjectState) (file : String) :
    Option (String × ComposeAnalysis) × Option String :=
  match fs.composeFile file with
  | none => (none, none)
  | some (.error e) => (none, some ("Failed to parse " ++ file ++ ": " ++ e))
  | some (.ok content) =>
    match analyze_compose_content content with
    | .ok analysis => (some (file, analysis), none)
    | .error e => (none, some ("Failed to parse " ++ file ++ ": " ++ e))

/-- Phase 1, `analyze_compose_files` (source lines 43-71): add the per-file
entries to `compose_files` and the per-file parse failures to `issues`, in
the order of `composeFileNames`. -/
def analyze_compose_files (fs : ProjectState) (r : AnalysisResult) : AnalysisResult :=
  { r with
    compose_files := r.compose_files ++
      composeFileNames.filterMap (fun f => (composeFileStep fs f).1),
    issues := r.issues ++
      composeFileNames.filterMap (fun f => (composeFileStep fs f).2) }

/-- Per-file body of the `analyze_dockerfiles` loop (source lines 120-134):
a read error or an analysis exception contributes one
`Failed to analyze ...` issue; otherwise the file contributes one entry of
the `dockerfiles` map. -/
def dockerfileStep (p : String × Except String String) :
    Option (String × DockerfileAnalysis) × Option String :=
  match p.2 with
  | .error e => (none, some ("Failed to analyze " ++ p.1 ++ ": " ++ e))
  | .ok content =>
    match analyze_dockerfile_content content with
    | .ok analysis => (some (p.1, analysis), none)
    | .error e => (none, some ("Failed to analyze " ++ p.1 ++ ": " ++ e))

/-- Phase 2, `analyze_dockerfiles` (source lines 110-134): run the per-file
analysis over every discovered Dockerfile. -/
def analyze_dockerfiles (fs : ProjectState) (r : AnalysisResult) : AnalysisResult :=
  { r with
    dockerfiles := r.dockerfiles ++
      fs.dockerfiles.filterMap (fun p => (dockerfileStep p).1),
    issues := r.issues ++
      fs.dockerfiles.filterMap (fun p => (dockerfileStep p).2) }

/-- The four monitoring paths, in the iteration order of the
`monitoring_files` dict (source lines 193-198). -/
def monitoringFileNames : List String :=
  ["monitoring/prometheus/prometheus.yml",
   "monitoring/grafana/dashboards/dashboards.yml",
   "monitoring/grafana/datasources/prometheus.yml",
   "monitoring/alertmanager/alertmanager.yml"]

/-- Existence of a monitoring path in the project state. -/
def monFileExists (fs : ProjectState) : String → Bool
  | "monitoring/prometheus/prometheus.yml" => fs.promConfig.isSome
  | "monitoring/grafana/dashboards/dashboards.yml" => fs.grafanaDashboards
  | "monitoring/grafana/datasources/prometheus.yml" => fs.grafanaDatasources.isSome
  | "monitoring/alertmanager/alertmanager.yml" => fs.alertmanagerExists
  | _ => false

/-- The `yaml.safe_load` result for a monitoring path (only the two paths the
code ever opens carry a parse result). -/
def monYaml (fs : ProjectState) : String → Option (Except String JValue)
  | "monitoring/prometheus/prometheus.yml" => fs.promConfig
  | "monitoring/grafana/datasources/prometheus.yml" => fs.grafanaDatasources
  | _ => none

/-- Per-file body of the `analyze_monitoring_config` loop (source lines
207-231). Note the branch guard on line 213 is the substring test
`'prometheus.yml' in file and 'prometheus' in file`, which matches both the
Prometheus config path and the Grafana datasources path. On a successful
parse, `exists` is set (line 217) before `scrape_configs` is computed (line
218), so a later `AttributeError`/`TypeError` on the loaded value leaves
`exists` true and appends an issue. -/
def monitoringStep (fs : ProjectState)
    (acc : MonitoringAnalysis × List String) (file : String) :
    MonitoringAnalysis × List String :=
  let ma := acc.1
  let issues := acc.2
  if monFileExists fs file then
    if pyContains file "prometheus.yml" && pyContains file "prometheus" then
      match monYaml fs file with
      | some (.ok config) =>
        let ma := { ma with prometheus := { ma.prometheus with exists_ := true } }
        match (do (← config.getD "scrape_configs" (.arr [])).pyLen :
               Except String Nat) with
        | .ok n => ({ ma with prometheus := { ma.prometheus with scrape_configs := n } }, issues)
        | .error e => (ma, issues ++ ["Failed to parse Prometheus config: " ++ e])
      | some (.error e) =>
        (ma, issues ++ ["Failed to parse Prometheus config: " ++ e])
      | none => (ma, issues)
    else if pyContains file "dashboards.yml" then
      ({ ma with grafana := ⟨true, fs.grafanaDashboardJsonCount⟩ }, issues)
    else (ma, issues)
  else (ma, issues)

/-- Phase 3, `analyze_monitoring_config` (source lines 189-233): fold the
per-file step over the four monitoring paths, then store the monitoring
record wholesale. -/
def analyze_monitoring_config (fs : ProjectState) (r : AnalysisResult) : AnalysisResult :=
  let res := monitoringFileNames.foldl (monitoringStep fs) (initMonitoringAnalysis, [])
  { r with monitoring := res.1, issues := r.issues ++ res.2 }

/-- The default-secret tokens (source line 255). -/
def default_patterns : List String :=
  ["CHANGE_ME", "password123", "admin123", "secret123"]

/-- The env filenames scanned by the security phase (source line 246). -/
def env_files : List String := [".env.production", ".env.dev", ".env.example"]

/-- The default-secret tokens found in one env-file content
(source lines 255-259). -/
def foundDefaults (content : String) : List String :=
  default_patterns.filter (fun pattern => pyContains content pattern)

/-- Per-file body of the `analyze_security_config` loop (source lines
247-279): a missing file records a bare `exists: false` entry; a read error
records one issue and no entry; otherwise the content is scanned for the
default-secret tokens (extending the cross-file `secrets_detected` list) and
the three secret-variable booleans. -/
def securityStep (fs : ProjectState)
    (acc : SecurityAnalysis × List String) (env_file : String) :
    SecurityAnalysis × List String :=
  let sa := acc.1
  let issues := acc.2
  match fs.envFile env_file with
  | none =>
    ({ sa with environment_files := sa.environment_files ++ [(env_file, .absent)] },
     issues)
  | some (.error e) =>
    (sa, issues ++ ["Failed to analyze " ++ env_file ++ ": " ++ e])
  | some (.ok content) =>
    let found := foundDefaults content
    let entry : EnvFileAnalysis := .present found
      (pyContains content "JWT_SECRET")
      (pyContains content "POSTGRES_PASSWORD" || pyContains content "DB_PASSWORD")
      (pyContains content "REDIS_PASSWORD")
    ({ sa with
        environment_files := sa.environment_files ++ [(env_file, entry)],
        secrets_detected := sa.secrets_detected ++ found },
     issues)

/-- Phase 4, `analyze_security_config` (source lines 235-281): fold the
per-file step over the env files, then store the security record wholesale. -/
def analyze_security_config (fs : ProjectState) (r : AnalysisResult) : AnalysisResult :=
  let res := env_files.foldl (securityStep fs) ((⟨[], [], []⟩ : SecurityAnalysis), [])
  { r with security := res.1, issues := r.issues ++ res.2 }

/-- The auxiliary config paths checked by phase 5 (source lines 288-292). -/
def config_files : List String := ["nginx/nginx.conf", "redis.conf", "redis.prod.conf"]

/-- Phase 5, `analyze_environment_config` (source lines 283-305): record an
existence boolean per auxiliary config path. -/
def analyze_environment_config (fs : ProjectState) (r : AnalysisResult) : AnalysisResult :=
  { r with environment :=
      ⟨config_files.map (fun f => (f, fs.configExists f))⟩ }

/-- Recommendation emitted when not every Dockerfile is multi-stage. -/
def multistageRec : String :=
  "Consider using multi-stage builds for all Dockerfiles to reduce image size"

/-- Recommendation emitted when not every compose file has healthchecks. -/
def healthcheckRec : String :=
  "Add health checks to all services for better reliability"

/-- Recommendation emitted when default secrets were detected. -/
def criticalRec : String :=
  "CRITICAL: Replace default passwords in environment files before production"

/-- Recommendation emitted when not every Dockerfile sets a user. -/
def nonRootRec : String :=
  "Configure non-root users in all Dockerfiles for security"

/-- Recommendation emitted when the Prometheus existence flag is false. -/
def prometheusRec : String :=
  "Configure Prometheus for production monitoring"

/-- Phase 6, `generate_summary` (source lines 307-342): derive the
recommendation list from the populated aggregate. `total_compose_files`
counts the truthy entries of the compose map (every stored analysis dict has
six keys, hence is truthy, so the count is the map's length). -/
def generate_summary (r : AnalysisResult) : AnalysisResult :=
  let total_compose_files := r.compose_files.length
  let total_dockerfiles := r.dockerfiles.length
  let multistage_dockerfiles :=
    (r.dockerfiles.filter (fun df => df.2.stages > 1)).length
  let compose_with_health :=
    (r.compose_files.filter (fun cf => cf.2.has_healthchecks)).length
  let non_root_dockerfiles :=
    (r.dockerfiles.filter (fun df => df.2.has_user)).length
  let recommendations :=
    (if multistage_dockerfiles < total_dockerfiles then [multistageRec] else []) ++
    (if compose_with_health < total_compose_files then [healthcheckRec] else []) ++
    (if !r.security.secrets_detected.isEmpty then [criticalRec] else []) ++
    (if non_root_dockerfiles < total_dockerfiles then [nonRootRec] else []) ++
    (if !r.monitoring.prometheus.exists_ then [prometheusRec] else [])
  { r with recommendations := recommendations }

/-- Model of `DockerConfigAnalyzer.analyze` (source lines 27-41): the five phases in
order, then the summary. -/
def analyze (fs : ProjectState) : AnalysisResult :=
  generate_summary
    (analyze_environment_config fs
      (analyze_security_config fs
        (analyze_monitoring_config fs
          (analyze_dockerfiles fs
            (analyze_compose_files fs initResults)))))

/-- Exit-code logic of `main` (source lines 373-383): exit 1 when
`secrets_detected` is non-empty, else exit 0 (the non-critical-issue branch
also exits 0). -/
def mainExitCode (fs : ProjectState) : Nat :=
  let results := analyze fs
  if results.security.secrets_detected.length > 0 then 1
  else if !results.issues.isEmpty then 0
  else 0

/-- An empty project: nothing exists. -/
def emptyProject : ProjectState :=
  ⟨fun _ => none, [], none, false, 0, none, false, fun _ => none, fun _ => false⟩

example : (analyze emptyProject).recommendations = [prometheusRec] := by decide

example : (analyze emptyProject).security.environment_files =
    [(".env.production", .absent), (".env.dev", .absent), (".env.example", .absent)] := by
  decide

example : mainExitCode emptyProject = 0 := by decide

example :
    mainExitCode { emptyProject with
      envFile := fun f => if f = ".env.dev" then some (.ok "X=password123") else none } = 1 := by
  decide

theorem monitoringStep_alert_jaeger (fs : ProjectState)
    (acc : MonitoringAnalysis × List String) (file : String) :
    (monitoringStep fs acc file).1.alertmanager = acc.1.alertmanager ∧
    (monitoringStep fs acc file).1.jaeger = acc.1.jaeger := by
  unfold monitoringStep
  dsimp only
  split_ifs <;> first
    | exact ⟨rfl, rfl⟩
    | (repeat' split) <;> exact ⟨rfl, rfl⟩

theorem monitoringFoldl_alert_jaeger (fs : ProjectState) (files : List String)
    (acc : MonitoringAnalysis × List String) :
    ((files.foldl (monitoringStep fs) acc).1.alertmanager = acc.1.alertmanager ∧
     (files.foldl (monitoringStep fs) acc).1.jaeger = acc.1.jaeger) := by
  induction files generalizing acc with
  | nil => exact ⟨rfl, rfl⟩
  | cons f t ih =>
    refine ⟨((ih _).1).trans (monitoringStep_alert_jaeger fs acc f).1,
            ((ih _).2).trans (monitoringStep_alert_jaeger fs acc f).2⟩

/-- C7: on every run and every project state, the monitoring sub-record's
`alertmanager` field of the final aggregate equals `{exists: false, routes: 0}`
and its `jaeger` field equals `{configured: false}`; the monitoring phase is
the only phase that writes the monitoring sub-record, and it never moves these
two fields off their defaults. -/
theorem alertmanager_jaeger_always_default (fs : ProjectState) :
    (analyze fs).monitoring.alertmanager = ⟨false, 0⟩ ∧
    (analyze fs).monitoring.jaeger = ⟨false⟩ ∧
    (∀ r, (analyze_compose_files fs r).monitoring = r.monitoring) ∧
    (∀ r, (analyze_dockerfiles fs r).monitoring = r.monitoring) ∧
    (∀ r, (analyze_security_config fs r).monitoring = r.monitoring) ∧
    (∀ r, (analyze_environment_config fs r).monitoring = r.monitoring) ∧
    (∀ r, (generate_summary r).monitoring = r.monitoring) ∧
    (∀ r, (analyze_monitoring_config fs r).monitoring.alertmanager = ⟨false, 0⟩ ∧
          (analyze_monitoring_config fs r).monitoring.jaeger = ⟨false⟩) := by
  have hfold := monitoringFoldl_alert_jaeger fs monitoringFileNames
    (initMonitoringAnalysis, [])
  refine ⟨hfold.1, hfold.2, fun _ => rfl, fun _ => rfl, fun _ => rfl,
          fun _ => rfl, fun _ => rfl, fun r => ⟨hfold.1, hfold.2⟩⟩

/-- The default-secret tokens contributed to `secrets_detected` by one env
file of the project state: none unless the file exists and reads cleanly. -/
def fileFound (fs : ProjectState) (f : String) : List String :=
  match fs.envFile f with
  | some (.ok content) => foundDefaults content
  | _ => []

/-- All default-secret tokens contributed by a list of env files, in order. -/
def allFound (fs : ProjectState) (files : List String) : List String :=
  (files.map (fileFound fs)).flatten

theorem securityStep_secrets (fs : ProjectState)
    (acc : SecurityAnalysis × List String) (f : String) :
    (securityStep fs acc f).1.secrets_detected =
      acc.1.secrets_detected ++ fileFound fs f := by
  unfold securityStep
  dsimp only
  split <;> rename_i heq <;> simp [fileFound, heq]

theorem securityFoldl_secrets (fs : ProjectState) (files : List String)
    (acc : SecurityAnalysis × List String) :
    (files.foldl (securityStep fs) acc).1.secrets_detected =
      acc.1.secrets_detected ++ allFound fs files := by
  induction files generalizing acc with
  | nil => simp [allFound]
  | cons f t ih =>
    simp only [List.foldl]
    rw [ih, securityStep_secrets]
    simp [allFound, List.append_assoc]

theorem analyze_secrets_eq (fs : ProjectState) :
    (analyze fs).security.secrets_detected = allFound fs env_files := by
  have h := securityFoldl_secrets fs env_files
    ((⟨[], [], []⟩ : SecurityAnalysis), [])
  simpa using h

/-- The condition the exit code is claimed to track: some scanned env file
exists, reads cleanly, and contains one of the four default-secret tokens as
a substring. -/
def DefaultSecretDetected (fs : ProjectState) : Prop :=
  ∃ f ∈ env_files, ∃ content, fs.envFile f = some (.ok content) ∧
    ∃ pattern ∈ default_patterns, pyContains content pattern = true

theorem allFound_ne_nil_iff (fs : ProjectState) :
    allFound fs env_files ≠ [] ↔ DefaultSecretDetected fs := by
  unfold allFound DefaultSecretDetected
  rw [Ne, List.flatten_eq_nil_iff]
  constructor
  · intro h
    push_neg at h
    obtain ⟨l, hl, hlne⟩ := h
    obtain ⟨f, hf, rfl⟩ := List.mem_map.mp hl
    unfold fileFound at hlne
    revert hlne
    split
    · next content heq =>
      intro hlne
      refine ⟨f, hf, content, heq, ?_⟩
      unfold foundDefaults at hlne
      rcases List.exists_mem_of_ne_nil _ hlne with ⟨p, hp⟩
      exact ⟨p, (List.mem_filter.mp hp).1, (List.mem_filter.mp hp).2⟩
    · intro hlne; exact absurd rfl hlne
  · rintro ⟨f, hf, content, heq, p, hp, hcont⟩ h
    have : fileFound fs f = [] := h _ (List.mem_map.mpr ⟨f, hf, rfl⟩)
    rw [fileFound, heq] at this
    have : p ∈ foundDefaults content := List.mem_filter.mpr ⟨hp, hcont⟩
    simp_all

/-- C1: the process exits with code 1 exactly when the aggregate
`secrets_detected` list is non-empty, which happens exactly when one of the
four default-secret tokens occurs as a substring of some existing, readable
env file; otherwise it exits 0 even when `issues` is non-empty. -/
theorem exit_code_one_iff_default_secret (fs : ProjectState) :
    (mainExitCode fs = 1 ↔ (analyze fs).security.secrets_detected ≠ []) ∧
    ((analyze fs).security.secrets_detected ≠ [] ↔ DefaultSecretDetected fs) ∧
    (¬ DefaultSecretDetected fs → mainExitCode fs = 0) := by
  have hiff : (analyze fs).security.secrets_detected ≠ [] ↔ DefaultSecretDetected fs := by
    rw [analyze_secrets_eq]; exact allFound_ne_nil_iff fs
  have hmain : mainExitCode fs = 1 ↔ (analyze fs).security.secrets_detected ≠ [] := by
    unfold mainExitCode
    dsimp only
    rcases h : (analyze fs).security.secrets_detected with _ | ⟨a, t⟩
    · simp
    · simp
  refine ⟨hmain, hiff, fun hnot => ?_⟩
  have hnil : (analyze fs).security.secrets_detected = [] := by
    by_contra hne; exact hnot (hiff.mp hne)
  unfold mainExitCode
  dsimp only
  rw [hnil]
  simp

/-- Witness for C1 at the empty project: no env file exists, so the
hypothesis of the third conjunct holds and the exit code is 0. -/
theorem exit_code_one_iff_default_secret_witness : mainExitCode emptyProject = 0 :=
  (exit_code_one_iff_default_secret emptyProject).2.2
    (by rintro ⟨f, hf, content, hc, _⟩; simp [emptyProject] at hc)

/-- Claim-side counting predicate: a non-blank, non-comment line that starts
with `FROM` and contains the substring `AS` (after stripping), i.e. a line
that the analyzer counts as a build stage. -/
def isStageLine (line0 : String) : Bool :=
  let line := pyStrip line0
  !(line.isEmpty || pyStartsWith line "#") &&
    (pyStartsWith line "FROM" && pyContains line "AS")

/-- Number of stage lines of a line list. -/
def countStageLines (lines : List String) : Nat :=
  (lines.filter isStageLine).length

theorem processLine_stages {a a' : DockerfileAnalysis} {l : String}
    (h : processLine a l = .ok a') :
    a'.stages = a.stages + (if isStageLine l then 1 else 0) := by
  unfold processLine at h
  dsimp only at h
  simp only [isStageLine]
  by_cases h1 : ((pyStrip l).isEmpty || pyStartsWith (pyStrip l) "#") = true
  · rw [if_pos h1] at h
    have := Except.ok.inj h
    subst this
    simp [h1]
  · rw [if_neg h1] at h
    by_cases h2 : (pyStartsWith (pyStrip l) "FROM" && pyContains (pyStrip l) "AS") = true
    · rw [if_pos h2] at h
      revert h
      split
      · intro h
        have := Except.ok.inj h
        subst this
        simp [h1, h2]
      · intro h; cases h
    · rw [if_neg h2] at h
      have h2' : (pyStartsWith (pyStrip l) "FROM" && pyContains (pyStrip l) "AS") = false :=
        Bool.eq_false_iff.mpr h2
      have hcond : (!((pyStrip l).isEmpty || pyStartsWith (pyStrip l) "#") &&
          (pyStartsWith (pyStrip l) "FROM" && pyContains (pyStrip l) "AS")) = false := by
        rw [h2', Bool.and_false]
      split_ifs at h <;> (have hsub := Except.ok.inj h; subst hsub; simp only [hcond]; simp)

theorem processLines_stages {lines : List String} {a a' : DockerfileAnalysis}
    (h : processLines a lines = .ok a') :
    a'.stages = a.stages + countStageLines lines := by
  induction lines generalizing a with
  | nil => cases h; simp [countStageLines]
  | cons l t ih =>
    unfold processLines at h
    revert h
    split
    · next a1 heq =>
      intro h
      rw [ih h, processLine_stages heq]
      simp only [countStageLines, List.filter_cons]
      split_ifs <;> (try simp only [List.length_cons]) <;> omega
    · intro h; cases h

/-- The claim's example Dockerfile: two `FROM ... AS` stage lines and one
trailing `FROM` line without `AS`. -/
def exampleDockerfile : String :=
  "FROM node:18 AS deps\nFROM node:18 AS build\nFROM alpine"

/-- C3: whenever the Dockerfile analysis completes without error, the
reported stage count equals the number of non-blank, non-comment lines that
start with `FROM` and contain the substring `AS`, except that a count of 0
with at least one recorded base image is forced to 1; the claim's example
with two `FROM ... AS` lines and a trailing plain `FROM` reports 2 stages
and its three base images in order. -/
theorem dockerfile_stage_count {content : String} {a : DockerfileAnalysis}
    (h : analyze_dockerfile_content content = .ok a) :
    (a.stages =
      if countStageLines (pySplitLines content) = 0 ∧ a.base_images ≠ []
      then 1 else countStageLines (pySplitLines content)) ∧
    analyze_dockerfile_content exampleDockerfile =
      .ok ⟨2, ["node:18", "node:18", "alpine"], false, false, false, false, [], []⟩ := by
  refine ⟨?_, by decide⟩
  unfold analyze_dockerfile_content at h
  revert h
  split
  · intro h; cases h
  · next a0 heq =>
    intro h
    have hst : a0.stages = countStageLines (pySplitLines content) := by
      have := processLines_stages heq
      simpa [initDockerfileAnalysis] using this
    have ha := Except.ok.inj h
    by_cases hc : (a0.stages == 0 && !a0.base_images.isEmpty) = true
    · rw [if_pos hc] at ha
      subst ha
      simp only [Bool.and_eq_true, beq_iff_eq, Bool.not_eq_true',
        List.isEmpty_eq_false] at hc
      rw [if_pos ⟨hst ▸ hc.1, hc.2⟩]
    · rw [if_neg hc] at ha
      subst ha
      rw [if_neg, hst]
      rintro ⟨hz, hne⟩
      exact hc (by
        simp only [Bool.and_eq_true, beq_iff_eq, Bool.not_eq_true',
          List.isEmpty_eq_false]
        exact ⟨hst.trans hz, hne⟩)

/-- Witness for C3 at the example Dockerfile: the analysis succeeds with
stage count 2, matching the counted stage lines. -/
theorem dockerfile_stage_count_witness :
    ((⟨2, ["node:18", "node:18", "alpine"], false, false, false, false, [], []⟩ :
        DockerfileAnalysis).stages =
      if countStageLines (pySplitLines exampleDockerfile) = 0 ∧
        (⟨2, ["node:18", "node:18", "alpine"], false, false, false, false, [], []⟩ :
          DockerfileAnalysis).base_images ≠ []
      then 1 else countStageLines (pySplitLines exampleDockerfile)) :=
  (@dockerfile_stage_count exampleDockerfile
    ⟨2, ["node:18", "node:18", "alpine"], false, false, false, false, [], []⟩
    (by decide)).1

/-- A project containing exactly one discovered Dockerfile whose only line is
the single token `FROMAS`: it starts with `FROM` and contains `AS`, so the
stage branch fires, and `line.split()[1]` has no second token. -/
def crashProject : ProjectState :=
  { emptyProject with dockerfiles := [("Dockerfile", .ok "FROMAS")] }

/-- C10: a single-token `FROM`-and-`AS` line makes the per-line analysis
raise (`list index out of range`); the per-file handler catches it, appends
one `Failed to analyze` issue naming the file, the Dockerfile gets no entry
in the `dockerfiles` map, and the run continues to the remaining phases -
unlike the plain-`FROM` branch, which guards the missing token with
`unknown`. -/
theorem fromas_line_raises_and_is_caught :
    analyze_dockerfile_content "FROMAS" = .error "list index out of range" ∧
    (analyze crashProject).dockerfiles = [] ∧
    (analyze crashProject).issues =
      ["Failed to analyze Dockerfile: list index out of range"] ∧
    (analyze crashProject).security.environment_files =
      [(".env.production", .absent), (".env.dev", .absent), (".env.example", .absent)] ∧
    (analyze crashProject).recommendations = [prometheusRec] ∧
    analyze_dockerfile_content "FROM" =
      .ok ⟨1, ["unknown"], false, false, false, false, [], []⟩ := by
  refine ⟨by decide, by decide, by decide, by decide, by decide, by decide⟩

/-- A project whose only monitoring file is the Grafana datasources file
`monitoring/grafana/datasources/prometheus.yml` (a well-formed YAML mapping);
the Prometheus config itself is absent. -/
def datasourcesOnlyProject : ProjectState :=
  { emptyProject with grafanaDatasources := some (.ok (.obj [])) }

/-- C2 (failing input): the loop guard on source line 213
(`'prometheus.yml' in file and 'prometheus' in file`) also matches the
Grafana datasources path, so with the Prometheus config absent but the
datasources file present the Prometheus existence flag is still set true and
the `Configure Prometheus for production monitoring` recommendation is not
emitted - the flag is not a function of the Prometheus path alone. -/
theorem prometheus_flag_set_by_datasources_file :
    datasourcesOnlyProject.promConfig = none ∧
    pyContains "monitoring/grafana/datasources/prometheus.yml" "prometheus.yml" = true ∧
    pyContains "monitoring/grafana/datasources/prometheus.yml" "prometheus" = true ∧
    (analyze datasourcesOnlyProject).monitoring.prometheus.exists_ = true ∧
    (analyze datasourcesOnlyProject).recommendations = [] := by
  refine ⟨rfl, by decide, by decide, by decide, by decide⟩

/-- A project with no Dockerfiles and no compose files, but an env file whose
content contains the default secret `password123`; Prometheus is absent. -/
def secretsOnlyProject : ProjectState :=
  { emptyProject with
      envFile := fun f =>
        if f = ".env.production" then some (.ok "DB=password123") else none }

/-- C5 (counterexample): with zero Dockerfiles discovered and zero compose
files found, the recommendations list is not limited to the Prometheus
recommendation - the CRITICAL default-secret recommendation is also emitted
when an env file carries a default secret. -/
theorem summary_critical_rec_despite_empty_maps :
    secretsOnlyProject.dockerfiles = [] ∧
    (∀ f ∈ composeFileNames, secretsOnlyProject.composeFile f = none) ∧
    (analyze secretsOnlyProject).monitoring.prometheus.exists_ = false ∧
    (analyze secretsOnlyProject).recommendations = [criticalRec, prometheusRec] ∧
    (analyze secretsOnlyProject).recommendations ≠ [prometheusRec] := by
  refine ⟨rfl, fun f _ => rfl, by decide, by decide, by decide⟩

theorem generate_summary_recs_of_empty (r : AnalysisResult)
    (h1 : r.compose_files = []) (h2 : r.dockerfiles = []) :
    (generate_summary r).recommendations =
      (if !r.security.secrets_detected.isEmpty then [criticalRec] else []) ++
      (if !r.monitoring.prometheus.exists_ then [prometheusRec] else []) := by
  unfold generate_summary
  rw [h1, h2]
  simp

/-- C5 (amended): for every project state with zero Dockerfiles discovered
and zero compose files found, the summary still runs and the recommendations
list consists of the CRITICAL default-secret recommendation (exactly when
`secrets_detected` is non-empty) followed by the Prometheus recommendation
(exactly when the Prometheus existence flag is false) and nothing else; the
multi-stage, healthcheck and non-root-user recommendations are not emitted
because `0 < 0` is false. -/
theorem summary_recs_empty_project (fs : ProjectState)
    (hdf : fs.dockerfiles = [])
    (hcf : ∀ f ∈ composeFileNames, fs.composeFile f = none) :
    (analyze fs).compose_files = [] ∧
    (analyze fs).dockerfiles = [] ∧
    (analyze fs).recommendations =
      (if !(analyze fs).security.secrets_detected.isEmpty then [criticalRec] else []) ++
      (if !(analyze fs).monitoring.prometheus.exists_ then [prometheusRec] else []) := by
  have hstep : ∀ f ∈ composeFileNames, (composeFileStep fs f).1 = none := by
    intro f hf
    simp [composeFileStep, hcf f hf]
  have hentries : composeFileNames.filterMap (fun f => (composeFileStep fs f).1) = [] :=
    List.filterMap_eq_nil_iff.mpr hstep
  have hcfs : (analyze fs).compose_files = [] := by
    show initResults.compose_files ++
      composeFileNames.filterMap (fun f => (composeFileStep fs f).1) = []
    rw [hentries]
    rfl
  have hdfs : (analyze fs).dockerfiles = [] := by
    show (analyze_compose_files fs initResults).dockerfiles ++
      fs.dockerfiles.filterMap (fun p => (dockerfileStep p).1) = []
    rw [hdf]
    rfl
  exact ⟨hcfs, hdfs, generate_summary_recs_of_empty _ hcfs hdfs⟩

/-- Witness for C5's amended theorem at the empty project. -/
theorem summary_recs_empty_project_witness :
    (analyze emptyProject).compose_files = [] ∧
    (analyze emptyProject).dockerfiles = [] ∧
    (analyze emptyProject).recommendations =
      (if !(analyze emptyProject).security.secrets_detected.isEmpty then [criticalRec] else []) ++
      (if !(analyze emptyProject).monitoring.prometheus.exists_ then [prometheusRec] else []) :=
  summary_recs_empty_project emptyProject rfl (fun _ _ => rfl)

theorem composeFileStep_key (fs : ProjectState) (f : String)
    (p : String × ComposeAnalysis) (h : (composeFileStep fs f).1 = some p) :
    p.1 = f := by
  unfold composeFileStep at h
  revert h
  split
  · intro h; cases h
  · intro h; cases h
  · split
    · intro h
      cases h
      rfl
    · intro h; cases h

theorem find?_compose_entries_none (fs : ProjectState) (names : List String)
    (file : String) (hself : (composeFileStep fs file).1 = none) :
    (names.filterMap (fun f => (composeFileStep fs f).1)).find?
      (fun p => p.1 == file) = none := by
  induction names with
  | nil => rfl
  | cons g t ih =>
    simp only [List.filterMap_cons]
    cases hg : (composeFileStep fs g).1 with
    | none => exact ih
    | some p =>
      have hk := composeFileStep_key fs g p hg
      have hne : (p.1 == file) = false := by
        rw [hk]
        by_cases hgf : g = file
        · subst hgf
          rw [hg] at hself
          cases hself
        · exact beq_eq_false_iff_ne.mpr hgf
      rw [List.find?_cons_of_neg _ (by rw [hne]; exact Bool.false_ne_true)]
      exact ih

theorem isPrefixOf_self_append (pat post : List Char) :
    pat.isPrefixOf (pat ++ post) = true := by
  induction pat with
  | nil => cases post <;> rfl
  | cons c cs ih => simp [List.isPrefixOf, ih]

theorem subListOf_nil_pat (l : List Char) : subListOf [] l = true := by
  cases l <;> simp [subListOf, List.isPrefixOf]

theorem subListOf_append (pre pat post : List Char) :
    subListOf pat (pre ++ (pat ++ post)) = true := by
  induction pre with
  | nil =>
    cases pat with
    | nil => exact subListOf_nil_pat _
    | cons c cs =>
      have h := isPrefixOf_self_append (c :: cs) post
      simp only [List.nil_append, List.cons_append, subListOf, List.append_eq]
      rw [← List.cons_append, h]
      simp
  | cons a t ih =>
    simp only [List.cons_append, subListOf, List.append_eq]
    rw [ih]
    simp

/-- A string mentions any of its append factors as a substring. -/
theorem pyContains_middle (pre mid post : String) :
    pyContains (pre ++ mid ++ post) mid = true := by
  unfold pyContains
  have : (pre ++ mid ++ post).data = pre.data ++ (mid.data ++ post.data) := by
    simp [String.data_append]
  rw [this]
  exact subListOf_append pre.data mid.data post.data

/-- C4: for every supported compose filename, an absent file contributes no
`compose_files` entry and no issue; a malformed file contributes exactly one
`Failed to parse` issue string mentioning that filename and no entry; and
the phase never aborts - it touches nothing but the compose map and the
issue list, whatever the state of any single file. -/
theorem compose_file_absent_or_malformed (fs : ProjectState) (file : String)
    (hmem : file ∈ composeFileNames) :
    (fs.composeFile file = none →
      composeFileStep fs file = (none, none) ∧
      (analyze_compose_files fs initResults).compose_files.find?
        (fun p => p.1 == file) = none) ∧
    (∀ e, fs.composeFile file = some (.error e) →
      composeFileStep fs file =
        (none, some ("Failed to parse " ++ file ++ ": " ++ e)) ∧
      pyContains ("Failed to parse " ++ file ++ ": " ++ e) file = true ∧
      (analyze_compose_files fs initResults).compose_files.find?
        (fun p => p.1 == file) = none) ∧
    (∀ r, (analyze_compose_files fs r).dockerfiles = r.dockerfiles ∧
          (analyze_compose_files fs r).monitoring = r.monitoring ∧
          (analyze_compose_files fs r).security = r.security ∧
          (analyze_compose_files fs r).environment = r.environment ∧
          (analyze_compose_files fs r).recommendations = r.recommendations) := by
  refine ⟨fun habs => ?_, fun e herr => ?_, fun r => ⟨rfl, rfl, rfl, rfl, rfl⟩⟩
  · have hstep : composeFileStep fs file = (none, none) := by
      unfold composeFileStep
      rw [habs]
    exact ⟨hstep,
      find?_compose_entries_none fs composeFileNames file
        (by rw [hstep])⟩
  · have hstep : composeFileStep fs file =
        (none, some ("Failed to parse " ++ file ++ ": " ++ e)) := by
      unfold composeFileStep
      rw [herr]
    refine ⟨hstep, ?_, find?_compose_entries_none fs composeFileNames file
      (by rw [hstep])⟩
    have : "Failed to parse " ++ file ++ ": " ++ e =
        "Failed to parse " ++ file ++ (": " ++ e) := by
      simp [String.append_assoc]
    rw [this]
    exact pyContains_middle "Failed to parse " file (": " ++ e)

/-- Witness for C4 at the empty project and the first compose filename. -/
theorem compose_file_absent_or_malformed_witness :
    composeFileStep emptyProject "docker-compose.yml" = (none, none) ∧
    (analyze_compose_files emptyProject initResults).compose_files.find?
      (fun p => p.1 == "docker-compose.yml") = none :=
  (compose_file_absent_or_malformed emptyProject "docker-compose.yml"
    (by decide)).1 rfl

/-- The five analysis phases run by `analyze` before the summary. -/
inductive Phase where
  | composeP
  | dockerfilesP
  | monitoringP
  | securityP
  | environmentP
deriving DecidableEq

/-- Dispatch a phase tag to its phase function. -/
def applyPhase (p : Phase) (fs : ProjectState) (r : AnalysisResult) : AnalysisResult :=
  match p with
  | .composeP => analyze_compose_files fs r
  | .dockerfilesP => analyze_dockerfiles fs r
  | .monitoringP => analyze_monitoring_config fs r
  | .securityP => analyze_security_config fs r
  | .environmentP => analyze_environment_config fs r

/-- Run a list of phases left to right over the aggregate. -/
def runPhases (fs : ProjectState) (order : List Phase) (r : AnalysisResult) : AnalysisResult :=
  order.foldl (fun acc p => applyPhase p fs acc) r

/-- Two aggregates that agree on every field except possibly the issue list. -/
def AgreesExceptIssues (a b : AnalysisResult) : Prop :=
  a.compose_files = b.compose_files ∧ a.dockerfiles = b.dockerfiles ∧
  a.monitoring = b.monitoring ∧ a.security = b.security ∧
  a.environment = b.environment ∧ a.recommendations = b.recommendations

/-- Aggregate `a` leaves every sub-map that phase `p` does not own, and the
recommendation list, as they are in `b`. -/
def NonOwnedFieldsPreserved (p : Phase) (a b : AnalysisResult) : Prop :=
  (p ≠ .composeP → a.compose_files = b.compose_files) ∧
  (p ≠ .dockerfilesP → a.dockerfiles = b.dockerfiles) ∧
  (p ≠ .monitoringP → a.monitoring = b.monitoring) ∧
  (p ≠ .securityP → a.security = b.security) ∧
  (p ≠ .environmentP → a.environment = b.environment) ∧
  a.recommendations = b.recommendations

/-- Aggregates equal except for a permutation of the issue list. -/
def EquivUpToIssues (a b : AnalysisResult) : Prop :=
  AgreesExceptIssues a b ∧ a.issues.Perm b.issues

theorem EquivUpToIssues.refl (a : AnalysisResult) : EquivUpToIssues a a :=
  ⟨⟨rfl, rfl, rfl, rfl, rfl, rfl⟩, List.Perm.refl _⟩

theorem EquivUpToIssues.trans {a b c : AnalysisResult}
    (h1 : EquivUpToIssues a b) (h2 : EquivUpToIssues b c) : EquivUpToIssues a c :=
  ⟨⟨h1.1.1.trans h2.1.1, h1.1.2.1.trans h2.1.2.1, h1.1.2.2.1.trans h2.1.2.2.1,
    h1.1.2.2.2.1.trans h2.1.2.2.2.1, h1.1.2.2.2.2.1.trans h2.1.2.2.2.2.1,
    h1.1.2.2.2.2.2.trans h2.1.2.2.2.2.2⟩, h1.2.trans h2.2⟩

theorem append_append_perm {α : Type} (xs a b : List α) :
    ((xs ++ a) ++ b).Perm ((xs ++ b) ++ a) := by
  rw [List.append_assoc, List.append_assoc]
  exact List.Perm.append_left xs List.perm_append_comm

theorem applyPhase_frame (p : Phase) (fs : ProjectState) (r : AnalysisResult) :
    NonOwnedFieldsPreserved p (applyPhase p fs r) r := by
  cases p <;>
    refine ⟨?_, ?_, ?_, ?_, ?_, rfl⟩ <;>
    first
      | (intro h; rfl)
      | (intro h; exact absurd rfl h)

theorem applyPhase_congr (p : Phase) (fs : ProjectState) {a b : AnalysisResult}
    (h : EquivUpToIssues a b) : EquivUpToIssues (applyPhase p fs a) (applyPhase p fs b) := by
  obtain ⟨⟨h1, h2, h3, h4, h5, h6⟩, hp⟩ := h
  cases p <;>
    exact ⟨⟨by simp [applyPhase, analyze_compose_files, analyze_dockerfiles,
        analyze_monitoring_config, analyze_security_config,
        analyze_environment_config, h1],
      by simp [applyPhase, analyze_compose_files, analyze_dockerfiles,
        analyze_monitoring_config, analyze_security_config,
        analyze_environment_config, h2],
      by simp [applyPhase, analyze_compose_files, analyze_dockerfiles,
        analyze_monitoring_config, analyze_security_config,
        analyze_environment_config, h3],
      by simp [applyPhase, analyze_compose_files, analyze_dockerfiles,
        analyze_monitoring_config, analyze_security_config,
        analyze_environment_config, h4],
      by simp [applyPhase, analyze_compose_files, analyze_dockerfiles,
        analyze_monitoring_config, analyze_security_config,
        analyze_environment_config, h5],
      by simp [applyPhase, analyze_compose_files, analyze_dockerfiles,
        analyze_monitoring_config, analyze_security_config,
        analyze_environment_config, h6]⟩,
      by simp only [applyPhase, analyze_compose_files, analyze_dockerfiles,
          analyze_monitoring_config, analyze_security_config,
          analyze_environment_config]
         first
           | exact hp
           | exact hp.append_right _⟩

theorem applyPhase_comm (p q : Phase) (fs : ProjectState) (r : AnalysisResult) :
    EquivUpToIssues (applyPhase p fs (applyPhase q fs r))
      (applyPhase q fs (applyPhase p fs r)) := by
  cases p <;> cases q <;>
    exact ⟨⟨rfl, rfl, rfl, rfl, rfl, rfl⟩,
      by first
        | exact List.Perm.refl _
        | exact append_append_perm _ _ _⟩

theorem runPhases_congr (fs : ProjectState) (order : List Phase)
    {a b : AnalysisResult} (h : EquivUpToIssues a b) :
    EquivUpToIssues (runPhases fs order a) (runPhases fs order b) := by
  induction order generalizing a b with
  | nil => exact h
  | cons p t ih => exact ih (applyPhase_congr p fs h)

theorem runPhases_perm (fs : ProjectState) {o1 o2 : List Phase}
    (h : o1.Perm o2) (r : AnalysisResult) :
    EquivUpToIssues (runPhases fs o1 r) (runPhases fs o2 r) := by
  induction h generalizing r with
  | nil => exact EquivUpToIssues.refl _
  | cons p hperm ih => exact ih (applyPhase p fs r)
  | swap p q t => exact runPhases_congr fs t (applyPhase_comm p q fs r)
  | trans h1 h2 ih1 ih2 => exact (ih1 r).trans (ih2 r)

/-- C9 (amended): each phase modifies only its own sub-map of the aggregate
plus the shared issue list, leaving the other sub-maps and the
recommendations untouched; consequently any two orderings of the five phases
produce aggregates that agree on every sub-map and on the recommendations,
with issue lists that are permutations of each other (the literal aggregates
can differ in the order of `issues`, which is why the original claim of full
equality fails). -/
theorem phases_frame_and_commute :
    (∀ (p : Phase) (fs : ProjectState) (r : AnalysisResult),
      NonOwnedFieldsPreserved p (applyPhase p fs r) r) ∧
    (∀ (fs : ProjectState) (o1 o2 : List Phase), o1.Perm o2 →
      ∀ r : AnalysisResult,
        AgreesExceptIssues (runPhases fs o1 r) (runPhases fs o2 r) ∧
        (runPhases fs o1 r).issues.Perm (runPhases fs o2 r).issues) :=
  ⟨applyPhase_frame, fun fs _ _ h r => runPhases_perm fs h r⟩

/-- A project in which both the compose phase and the Dockerfile phase
produce one issue each: the first compose file is malformed and the single
discovered Dockerfile fails to read. -/
def twoIssuesProject : ProjectState :=
  { emptyProject with
      composeFile := fun f =>
        if f = "docker-compose.yml" then some (.error "bad yaml") else none,
      dockerfiles := [("Dockerfile.bad", .error "boom")] }

/-- C9 (counterexample to the claim as stated): running the compose phase
before the Dockerfile phase versus after it yields different aggregates on
the same project state - the two issue strings appear in different orders. -/
theorem phase_order_changes_aggregate :
    (runPhases twoIssuesProject [.composeP, .dockerfilesP] initResults).issues =
      ["Failed to parse docker-compose.yml: bad yaml",
       "Failed to analyze Dockerfile.bad: boom"] ∧
    (runPhases twoIssuesProject [.dockerfilesP, .composeP] initResults).issues =
      ["Failed to analyze Dockerfile.bad: boom",
       "Failed to parse docker-compose.yml: bad yaml"] ∧
    runPhases twoIssuesProject [.composeP, .dockerfilesP] initResults ≠
      runPhases twoIssuesProject [.dockerfilesP, .composeP] initResults := by
  refine ⟨by decide, by decide, fun h => ?_⟩
  have h2 := congrArg AnalysisResult.issues h
  revert h2
  decide

/-- Witness for C9's amended theorem: the two orders of the issue-producing
phases agree up to a permutation of the issue list. -/
theorem phases_frame_and_commute_witness :
    AgreesExceptIssues
      (runPhases twoIssuesProject [.composeP, .dockerfilesP] initResults)
      (runPhases twoIssuesProject [.dockerfilesP, .composeP] initResults) ∧
    (runPhases twoIssuesProject [.composeP, .dockerfilesP] initResults).issues.Perm
      (runPhases twoIssuesProject [.dockerfilesP, .composeP] initResults).issues :=
  phases_frame_and_commute.2 twoIssuesProject
    [.composeP, .dockerfilesP] [.dockerfilesP, .composeP] (by decide) initResults

/-- The nine per-line checks of the Dockerfile line loop, in source order. -/
inductive LineCheck where
  | fromAs
  | fromPlain
  | userLine
  | healthcheckLine
  | exposeLine
  | entrypointLine
  | cacheMount
  | buildkitLine
  | multiPlatform
deriving DecidableEq

/-- The first check (in the source's `if`/`elif` order) that matches a line,
if any; blank and comment lines match none. -/
def classifyLine (line0 : String) : Option LineCheck :=
  let line := pyStrip line0
  if line.isEmpty || pyStartsWith line "#" then none
  else if pyStartsWith line "FROM" && pyContains line "AS" then some .fromAs
  else if pyStartsWith line "FROM" then some .fromPlain
  else if pyStartsWith line "USER " then some .userLine
  else if pyStartsWith line "HEALTHCHECK" then some .healthcheckLine
  else if pyStartsWith line "EXPOSE" then some .exposeLine
  else if pyStartsWith line "ENTRYPOINT" || pyStartsWith line "CMD" then some .entrypointLine
  else if pyContains line "--mount=type=cache" then some .cacheMount
  else if pyContains line "BUILDKIT" then some .buildkitLine
  else if pyContains line "--platform=" then some .multiPlatform
  else none

/-- The effect of a single fired check on the per-file analysis record; a
line that fires no check leaves the record unchanged. -/
def applyCheck (c : Option LineCheck) (a : DockerfileAnalysis) (line0 : String) :
    Except String DockerfileAnalysis :=
  let line := pyStrip line0
  match c with
  | none => .ok a
  | some .fromAs =>
    match (pySplit line).get? 1 with
    | some base_image =>
      .ok { a with stages := a.stages + 1,
                   base_images := a.base_images ++ [base_image] }
    | none => .error "list index out of range"
  | some .fromPlain =>
    .ok { a with base_images := a.base_images ++
      [if (pySplit line).length > 1
       then ((pySplit line).get? 1).getD "unknown" else "unknown"] }
  | some .userLine =>
    .ok { a with has_user := true,
                 security_features := a.security_features ++ ["non-root-user"] }
  | some .healthcheckLine =>
    .ok { a with has_healthcheck := true,
                 security_features := a.security_features ++ ["health-check"] }
  | some .exposeLine => .ok { a with has_expose := true }
  | some .entrypointLine => .ok { a with has_entrypoint := true }
  | some .cacheMount =>
    .ok { a with optimization_features := a.optimization_features ++ ["build-cache"] }
  | some .buildkitLine =>
    .ok { a with optimization_features := a.optimization_features ++ ["buildkit"] }
  | some .multiPlatform =>
    .ok { a with optimization_features := a.optimization_features ++ ["multi-platform"] }

set_option maxHeartbeats 1600000 in
/-- C6: per line, the analyzer applies exactly the effect of the first check
that matches (the `if`/`elif` chain fires at most one check); in particular
a line that completes never both changes the stage fields (`stages`,
`base_images`) and changes a security/optimization field. -/
theorem dockerfile_line_first_match (a : DockerfileAnalysis) (l : String) :
    processLine a l = applyCheck (classifyLine l) a l ∧
    (∀ a', processLine a l = .ok a' →
      (a'.security_features = a.security_features ∧
       a'.optimization_features = a.optimization_features ∧
       a'.has_user = a.has_user ∧ a'.has_healthcheck = a.has_healthcheck ∧
       a'.has_expose = a.has_expose ∧ a'.has_entrypoint = a.has_entrypoint) ∨
      (a'.stages = a.stages ∧ a'.base_images = a.base_images)) := by
  constructor
  · unfold processLine classifyLine
    dsimp only
    simp only [apply_ite (fun c => applyCheck c a l)]
    rfl
  · intro a' h
    unfold processLine at h
    dsimp only at h
    split_ifs at h <;>
      first
        | (have hsub := Except.ok.inj h; subst hsub;
           first
             | exact Or.inl ⟨rfl, rfl, rfl, rfl, rfl, rfl⟩
             | exact Or.inr ⟨rfl, rfl⟩)
        | (revert h; split
           · intro h
             have := Except.ok.inj h
             subst this
             exact Or.inl ⟨rfl, rfl, rfl, rfl, rfl, rfl⟩
           · intro h; cases h)

/-- Witness for C6: the line `USER node` fires only the user check, so the
stage fields are untouched. -/
theorem dockerfile_line_first_match_witness :
    ((⟨0, [], true, false, false, false, ["non-root-user"], []⟩ :
        DockerfileAnalysis).security_features =
          initDockerfileAnalysis.security_features ∧
     (⟨0, [], true, false, false, false, ["non-root-user"], []⟩ :
        DockerfileAnalysis).optimization_features =
          initDockerfileAnalysis.optimization_features ∧
     (⟨0, [], true, false, false, false, ["non-root-user"], []⟩ :
        DockerfileAnalysis).has_user = initDockerfileAnalysis.has_user ∧
     (⟨0, [], true, false, false, false, ["non-root-user"], []⟩ :
        DockerfileAnalysis).has_healthcheck = initDockerfileAnalysis.has_healthcheck ∧
     (⟨0, [], true, false, false, false, ["non-root-user"], []⟩ :
        DockerfileAnalysis).has_expose = initDockerfileAnalysis.has_expose ∧
     (⟨0, [], true, false, false, false, ["non-root-user"], []⟩ :
        DockerfileAnalysis).has_entrypoint = initDockerfileAnalysis.has_entrypoint) ∨
    ((⟨0, [], true, false, false, false, ["non-root-user"], []⟩ :
        DockerfileAnalysis).stages = initDockerfileAnalysis.stages ∧
     (⟨0, [], true, false, false, false, ["non-root-user"], []⟩ :
        DockerfileAnalysis).base_images = initDockerfileAnalysis.base_images) :=
  (dockerfile_line_first_match initDockerfileAnalysis "USER node").2
    ⟨0, [], true, false, false, false, ["non-root-user"], []⟩ (by decide)

/-- How `json.dump` renders a dict key: strings pass through, ints are
written in decimal, booleans become `true`/`false`, `None` becomes `null`. -/
def encodeKey : JKey → String
  | .str s => s
  | .int n => toString n
  | .bool true => "true"
  | .bool false => "false"
  | .null => "null"

/-- A mapping key used as a plain value (for example by
`list(d.keys())` stored into the aggregate): `json.dump` keeps its type. -/
def JKey.toJValue : JKey → JValue
  | .str s => .str s
  | .int n => .num n
  | .bool b => .bool b
  | .null => .null

mutual

/-- The value `json.load` reads back after `json.dump` wrote a YAML-derived
value: identical except that every dict key is stringified via `encodeKey`.
This is the one place dump-then-load differs from the identity. -/
def dumpValue : JValue → JValue
  | .null => .null
  | .bool b => .bool b
  | .num n => .num n
  | .str s => .str s
  | .arr xs => .arr (dumpList xs)
  | .obj kvs => .obj (dumpPairs kvs)

/-- Elementwise `dumpValue` over a JSON array. -/
def dumpList : List JValue → List JValue
  | [] => []
  | v :: r => dumpValue v :: dumpList r

/-- Key-stringifying `dumpValue` over a JSON object's fields. -/
def dumpPairs : List (JKey × JValue) → List (JKey × JValue)
  | [] => []
  | p :: r => (.str (encodeKey p.1), dumpValue p.2) :: dumpPairs r

end

/-- Whether a mapping key is already a string (then `json.dump` leaves it). -/
def isStrKey : JKey → Bool
  | .str _ => true
  | _ => false

mutual

/-- A YAML value all of whose mapping keys (at every depth) are strings:
exactly the values on which `dumpValue` is the identity. -/
def stringKeyed : JValue → Bool
  | .null => true
  | .bool _ => true
  | .num _ => true
  | .str _ => true
  | .arr xs => stringKeyedList xs
  | .obj kvs => stringKeyedPairs kvs

/-- All elements of an array are string-keyed. -/
def stringKeyedList : List JValue → Bool
  | [] => true
  | v :: r => stringKeyed v && stringKeyedList r

/-- All fields of an object have string keys and string-keyed values. -/
def stringKeyedPairs : List (JKey × JValue) → Bool
  | [] => true
  | p :: r => isStrKey p.1 && stringKeyed p.2 && stringKeyedPairs r

end

mutual

theorem dumpValue_id : ∀ (v : JValue), stringKeyed v = true → dumpValue v = v
  | .null, _ => rfl
  | .bool _, _ => rfl
  | .num _, _ => rfl
  | .str _, _ => rfl
  | .arr xs, h => by
    rw [dumpValue, dumpList_id xs (by simpa [stringKeyed] using h)]
  | .obj kvs, h => by
    rw [dumpValue, dumpPairs_id kvs (by simpa [stringKeyed] using h)]

theorem dumpList_id : ∀ (xs : List JValue), stringKeyedList xs = true → dumpList xs = xs
  | [], _ => rfl
  | v :: r, h => by
    have h' := Bool.and_eq_true_iff.mp (by simpa [stringKeyedList] using h)
    rw [dumpList, dumpValue_id v h'.1, dumpList_id r h'.2]

theorem dumpPairs_id : ∀ (kvs : List (JKey × JValue)),
    stringKeyedPairs kvs = true → dumpPairs kvs = kvs
  | [], _ => rfl
  | (k, v) :: r, h => by
    have h' : (isStrKey k = true ∧ stringKeyed v = true) ∧
        stringKeyedPairs r = true := by
      simpa [stringKeyedPairs, Bool.and_eq_true_iff] using h
    cases k with
    | str s =>
      rw [dumpPairs, dumpValue_id v h'.1.2, dumpPairs_id r h'.2]
      rfl
    | int n => simp [isStrKey] at h'
    | bool b => simp [isStrKey] at h'
    | null => simp [isStrKey] at h'

end

/-- Decode a JSON string leaf. -/
def decodeStr : JValue → Option String
  | .str s => some s
  | _ => none

/-- Decode a loaded JSON scalar back into the mapping key it came from when
it was stored as a plain value (inverse of `JKey.toJValue`). -/
def decodeKeyValue : JValue → Option JKey
  | .str s => some (.str s)
  | .num n => some (.int n)
  | .bool b => some (.bool b)
  | .null => some .null
  | _ => none

/-- Decode every element of a JSON array with `dec`, failing if any fails. -/
def decodeList {α : Type} (dec : JValue → Option α) : List JValue → Option (List α)
  | [] => some []
  | v :: rest =>
    match dec v with
    | some a =>
      match decodeList dec rest with
      | some as => some (a :: as)
      | none => none
    | none => none

/-- Decode the fields of a loaded JSON object (whose keys are all strings,
as `json.load` produces) into a string-keyed association list. -/
def decodePairs {α : Type} (dec : JValue → Option α) :
    List (JKey × JValue) → Option (List (String × α))
  | [] => some []
  | (.str k, v) :: rest =>
    match dec v with
    | some a =>
      match decodePairs dec rest with
      | some ps => some ((k, a) :: ps)
      | none => none
    | none => none
  | _ => none

/-- Decode the fields of a loaded JSON object into a `JKey`-keyed association
list; the loaded keys are the strings `json.dump` wrote. -/
def decodeKeyedPairs {α : Type} (dec : JValue → Option α) :
    List (JKey × JValue) → Option (List (JKey × α))
  | [] => some []
  | (.str k, v) :: rest =>
    match dec v with
    | some a =>
      match decodeKeyedPairs dec rest with
      | some ps => some ((JKey.str k, a) :: ps)
      | none => none
    | none => none
  | _ => none

/-- The `json.dump` image of a per-service analysis dict (source lines
86-97); the six YAML-derived fields pass through `dumpValue`, which
stringifies any nested dict keys. -/
def encodeService (s : ServiceAnalysis) : JValue :=
  .obj [(.str "image", dumpValue s.image), (.str "build", dumpValue s.build),
        (.str "ports", dumpValue s.ports), (.str "volumes", dumpValue s.volumes),
        (.str "environment", .bool s.environment),
        (.str "depends_on", dumpValue s.depends_on),
        (.str "healthcheck", .bool s.healthcheck),
        (.str "security_opt", .bool s.security_opt),
        (.str "deploy", .bool s.deploy), (.str "restart", dumpValue s.restart)]

/-- The `json.load` inverse on the per-service shape. -/
def decodeService : JValue → Option ServiceAnalysis
  | .obj [(.str "image", image), (.str "build", build), (.str "ports", ports),
          (.str "volumes", volumes), (.str "environment", .bool environment),
          (.str "depends_on", depends_on), (.str "healthcheck", .bool healthcheck),
          (.str "security_opt", .bool security_opt), (.str "deploy", .bool deploy),
          (.str "restart", restart)] =>
    some ⟨image, build, ports, volumes, environment, depends_on, healthcheck,
          security_opt, deploy, restart⟩
  | _ => none

/-- The `json.dump` image of a per-compose-file analysis dict (source lines
75-82): service-name keys are stringified via `encodeKey`; the volume and
network name lists are stored as array elements, so their types survive. -/
def encodeCompose (c : ComposeAnalysis) : JValue :=
  .obj [(.str "services",
          .obj (c.services.map (fun p => (JKey.str (encodeKey p.1), encodeService p.2)))),
        (.str "volumes", .arr (c.volumes.map JKey.toJValue)),
        (.str "networks", .arr (c.networks.map JKey.toJValue)),
        (.str "has_healthchecks", .bool c.has_healthchecks),
        (.str "has_security_opts", .bool c.has_security_opts),
        (.str "has_resource_limits", .bool c.has_resource_limits)]

/-- The `json.load` inverse on the per-compose-file shape. -/
def decodeCompose : JValue → Option ComposeAnalysis
  | .obj [(.str "services", .obj svs), (.str "volumes", .arr vols),
          (.str "networks", .arr nets), (.str "has_healthchecks", .bool h1),
          (.str "has_security_opts", .bool h2), (.str "has_resource_limits", .bool h3)] =>
    match decodeKeyedPairs decodeService svs, decodeList decodeKeyValue vols,
          decodeList decodeKeyValue nets with
    | some services, some volumes, some networks =>
      some ⟨services, volumes, networks, h1, h2, h3⟩
    | _, _, _ => none
  | _ => none

/-- The `json.dump` image of a per-Dockerfile analysis dict (source lines
139-148). -/
def encodeDockerfile (d : DockerfileAnalysis) : JValue :=
  .obj [(.str "stages", .num d.stages),
        (.str "base_images", .arr (d.base_images.map .str)),
        (.str "has_user", .bool d.has_user),
        (.str "has_healthcheck", .bool d.has_healthcheck),
        (.str "has_expose", .bool d.has_expose),
        (.str "has_entrypoint", .bool d.has_entrypoint),
        (.str "security_features", .arr (d.security_features.map .str)),
        (.str "optimization_features", .arr (d.optimization_features.map .str))]

/-- The `json.load` inverse on the per-Dockerfile shape. -/
def decodeDockerfile : JValue → Option DockerfileAnalysis
  | .obj [(.str "stages", .num stages), (.str "base_images", .arr imgs),
          (.str "has_user", .bool h1), (.str "has_healthcheck", .bool h2),
          (.str "has_expose", .bool h3), (.str "has_entrypoint", .bool h4),
          (.str "security_features", .arr sfs),
          (.str "optimization_features", .arr ofs)] =>
    match decodeList decodeStr imgs, decodeList decodeStr sfs,
          decodeList decodeStr ofs with
    | some base_images, some security_features, some optimization_features =>
      some ⟨stages.toNat, base_images, h1, h2, h3, h4, security_features,
            optimization_features⟩
    | _, _, _ => none
  | _ => none

/-- The `json.dump` image of the monitoring record (source lines 200-205). -/
def encodeMonitoring (m : MonitoringAnalysis) : JValue :=
  .obj [(.str "prometheus", .obj [(.str "exists", .bool m.prometheus.exists_),
          (.str "scrape_configs", .num m.prometheus.scrape_configs)]),
        (.str "grafana", .obj [(.str "exists", .bool m.grafana.exists_),
          (.str "dashboards", .num m.grafana.dashboards)]),
        (.str "alertmanager", .obj [(.str "exists", .bool m.alertmanager.exists_),
          (.str "routes", .num m.alertmanager.routes)]),
        (.str "jaeger", .obj [(.str "configured", .bool m.jaeger.configured)])]

/-- The `json.load` inverse on the monitoring shape. -/
def decodeMonitoring : JValue → Option MonitoringAnalysis
  | .obj [(.str "prometheus", .obj [(.str "exists", .bool pe),
            (.str "scrape_configs", .num ps)]),
          (.str "grafana", .obj [(.str "exists", .bool ge),
            (.str "dashboards", .num gd)]),
          (.str "alertmanager", .obj [(.str "exists", .bool ae),
            (.str "routes", .num ar)]),
          (.str "jaeger", .obj [(.str "configured", .bool jc)])] =>
    some ⟨⟨pe, ps.toNat⟩, ⟨ge, gd.toNat⟩, ⟨ae, ar.toNat⟩, ⟨jc⟩⟩
  | _ => none

/-- The `json.dump` image of one `environment_files` entry (source lines
261-267 resp. 278). -/
def encodeEnvFile : EnvFileAnalysis → JValue
  | .absent => .obj [(.str "exists", .bool false)]
  | .present ds j d rp =>
    .obj [(.str "exists", .bool true),
          (.str "default_secrets", .arr (ds.map .str)),
          (.str "has_jwt_secret", .bool j), (.str "has_db_password", .bool d),
          (.str "has_redis_password", .bool rp)]

/-- The `json.load` inverse on the `environment_files` entry shapes. -/
def decodeEnvFile : JValue → Option EnvFileAnalysis
  | .obj [(.str "exists", .bool false)] => some .absent
  | .obj [(.str "exists", .bool true), (.str "default_secrets", .arr ds),
          (.str "has_jwt_secret", .bool j), (.str "has_db_password", .bool d),
          (.str "has_redis_password", .bool rp)] =>
    match decodeList decodeStr ds with
    | some default_secrets => some (.present default_secrets j d rp)
    | none => none
  | _ => none

/-- The `json.dump` image of the security record (source lines 239-243). -/
def encodeSecurity (s : SecurityAnalysis) : JValue :=
  .obj [(.str "environment_files",
          .obj (s.environment_files.map (fun p => (JKey.str p.1, encodeEnvFile p.2)))),
        (.str "secrets_detected", .arr (s.secrets_detected.map .str)),
        (.str "security_practices", .arr (s.security_practices.map .str))]

/-- The `json.load` inverse on the security shape. -/
def decodeSecurity : JValue → Option SecurityAnalysis
  | .obj [(.str "environment_files", .obj efs), (.str "secrets_detected", .arr sd),
          (.str "security_practices", .arr sp)] =>
    match decodePairs decodeEnvFile efs, decodeList decodeStr sd,
          decodeList decodeStr sp with
    | some environment_files, some secrets_detected, some security_practices =>
      some ⟨environment_files, secrets_detected, security_practices⟩
    | _, _, _ => none
  | _ => none

/-- The `json.dump` image of one `config_files` entry. -/
def encodeConfigFile (b : Bool) : JValue := .obj [(.str "exists", .bool b)]

/-- The `json.load` inverse on a `config_files` entry. -/
def decodeConfigFile : JValue → Option Bool
  | .obj [(.str "exists", .bool b)] => some b
  | _ => none

/-- The `json.dump` image of the environment record (source line 294). -/
def encodeEnvironment (e : EnvironmentAnalysis) : JValue :=
  .obj [(.str "config_files",
          .obj (e.config_files.map (fun p => (JKey.str p.1, encodeConfigFile p.2))))]

/-- The `json.load` inverse on the environment shape. -/
def decodeEnvironment : JValue → Option EnvironmentAnalysis
  | .obj [(.str "config_files", .obj cfs)] =>
    match decodePairs decodeConfigFile cfs with
    | some config_files => some ⟨config_files⟩
    | none => none
  | _ => none

/-- The `json.dump` image of the whole aggregate: the keys appear in Python
dict insertion order - the six `__init__` keys first, then `environment`,
which phase 5 adds last (source lines 18-25 and 305). -/
def encodeAnalysisResult (r : AnalysisResult) : JValue :=
  .obj [(.str "compose_files",
          .obj (r.compose_files.map (fun p => (JKey.str p.1, encodeCompose p.2)))),
        (.str "dockerfiles",
          .obj (r.dockerfiles.map (fun p => (JKey.str p.1, encodeDockerfile p.2)))),
        (.str "monitoring", encodeMonitoring r.monitoring),
        (.str "security", encodeSecurity r.security),
        (.str "issues", .arr (r.issues.map .str)),
        (.str "recommendations", .arr (r.recommendations.map .str)),
        (.str "environment", encodeEnvironment r.environment)]

/-- The `json.load` inverse on the aggregate shape. -/
def decodeAnalysisResult : JValue → Option AnalysisResult
  | .obj [(.str "compose_files", .obj cfs), (.str "dockerfiles", .obj dfs),
          (.str "monitoring", mv), (.str "security", sv),
          (.str "issues", .arr iss), (.str "recommendations", .arr recs),
          (.str "environment", ev)] =>
    match decodePairs decodeCompose cfs, decodePairs decodeDockerfile dfs,
          decodeMonitoring mv, decodeSecurity sv, decodeList decodeStr iss,
          decodeList decodeStr recs, decodeEnvironment ev with
    | some compose_files, some dockerfiles, some monitoring, some security,
      some issues, some recommendations, some environment =>
      some ⟨compose_files, dockerfiles, monitoring, security, environment,
            issues, recommendations⟩
    | _, _, _, _, _, _, _ => none
  | _ => none

/-- All YAML-derived fields of a service analysis are string-keyed. -/
def stringKeyedService (s : ServiceAnalysis) : Bool :=
  stringKeyed s.image && stringKeyed s.build && stringKeyed s.ports &&
  stringKeyed s.volumes && stringKeyed s.depends_on && stringKeyed s.restart

/-- All service names of a compose analysis are strings and all service
records are string-keyed. -/
def stringKeyedCompose (c : ComposeAnalysis) : Bool :=
  c.services.all (fun p => isStrKey p.1 && stringKeyedService p.2)

/-- The aggregate carries no non-string mapping key: the compose sub-map is
the only place raw YAML mappings (service names and service field values)
reach the output. -/
def stringKeyedResult (r : AnalysisResult) : Bool :=
  r.compose_files.all (fun p => stringKeyedCompose p.2)

theorem decodeStr_encode (s : String) : decodeStr (.str s) = some s := rfl

theorem decodeKeyValue_encode (k : JKey) : decodeKeyValue (JKey.toJValue k) = some k := by
  cases k <;> rfl

theorem decodeList_encode {α : Type} (enc : α → JValue) (dec : JValue → Option α)
    (h : ∀ a, dec (enc a) = some a) (xs : List α) :
    decodeList dec (xs.map enc) = some xs := by
  induction xs with
  | nil => rfl
  | cons x t ih => simp [decodeList, h, ih]

theorem decodePairs_encode {α : Type} (enc : α → JValue) (dec : JValue → Option α)
    (pred : α → Bool) (h : ∀ a, pred a = true → dec (enc a) = some a) :
    ∀ (xs : List (String × α)), xs.all (fun p => pred p.2) = true →
      decodePairs dec (xs.map (fun p => (JKey.str p.1, enc p.2))) = some xs := by
  intro xs
  induction xs with
  | nil => intro _; rfl
  | cons x t ih =>
    intro hall
    obtain ⟨k, v⟩ := x
    have h' : pred v = true ∧ t.all (fun p => pred p.2) = true := by
      simpa using hall
    simp [decodePairs, h v h'.1, ih h'.2]

theorem decodeKeyedPairs_encode {α : Type} (enc : α → JValue) (dec : JValue → Option α)
    (pred : α → Bool) (h : ∀ a, pred a = true → dec (enc a) = some a) :
    ∀ (xs : List (JKey × α)), xs.all (fun p => isStrKey p.1 && pred p.2) = true →
      decodeKeyedPairs dec
        (xs.map (fun p => (JKey.str (encodeKey p.1), enc p.2))) = some xs := by
  intro xs
  induction xs with
  | nil => intro _; rfl
  | cons x t ih =>
    intro hall
    obtain ⟨k, v⟩ := x
    have h' : (isStrKey k = true ∧ pred v = true) ∧
        t.all (fun p => isStrKey p.1 && pred p.2) = true := by
      simpa [Bool.and_eq_true_iff] using hall
    cases k with
    | str s =>
      rw [List.map_cons]
      simp only [show encodeKey (JKey.str s) = s from rfl]
      simp [decodeKeyedPairs, h v h'.1.2, ih h'.2]
    | int n => simp [isStrKey] at h'
    | bool b => simp [isStrKey] at h'
    | null => simp [isStrKey] at h'

theorem decodeService_encode (s : ServiceAnalysis)
    (h : stringKeyedService s = true) :
    decodeService (encodeService s) = some s := by
  have h' := h
  simp only [stringKeyedService, Bool.and_eq_true] at h'
  obtain ⟨⟨⟨⟨⟨h1, h2⟩, h3⟩, h4⟩, h5⟩, h6⟩ := h'
  simp only [encodeService]
  rw [dumpValue_id _ h1, dumpValue_id _ h2, dumpValue_id _ h3,
      dumpValue_id _ h4, dumpValue_id _ h5, dumpValue_id _ h6]
  rfl

theorem decodeCompose_encode (c : ComposeAnalysis)
    (h : stringKeyedCompose c = true) :
    decodeCompose (encodeCompose c) = some c := by
  simp only [encodeCompose, decodeCompose]
  rw [decodeKeyedPairs_encode encodeService decodeService stringKeyedService
        decodeService_encode c.services (by simpa [stringKeyedCompose] using h),
      decodeList_encode JKey.toJValue decodeKeyValue decodeKeyValue_encode,
      decodeList_encode JKey.toJValue decodeKeyValue decodeKeyValue_encode]

theorem decodeDockerfile_encode (d : DockerfileAnalysis) :
    decodeDockerfile (encodeDockerfile d) = some d := by
  simp only [encodeDockerfile, decodeDockerfile]
  rw [decodeList_encode JValue.str decodeStr decodeStr_encode,
      decodeList_encode JValue.str decodeStr decodeStr_encode,
      decodeList_encode JValue.str decodeStr decodeStr_encode]
  simp

theorem decodeMonitoring_encode (m : MonitoringAnalysis) :
    decodeMonitoring (encodeMonitoring m) = some m := rfl

theorem decodeEnvFile_encode (e : EnvFileAnalysis) :
    decodeEnvFile (encodeEnvFile e) = some e := by
  cases e with
  | absent => rfl
  | present ds j d rp =>
    simp only [encodeEnvFile, decodeEnvFile]
    rw [decodeList_encode JValue.str decodeStr decodeStr_encode]

theorem decodeSecurity_encode (s : SecurityAnalysis) :
    decodeSecurity (encodeSecurity s) = some s := by
  simp only [encodeSecurity, decodeSecurity]
  rw [decodePairs_encode encodeEnvFile decodeEnvFile (fun _ => true)
        (fun a _ => decodeEnvFile_encode a) s.environment_files (by simp),
      decodeList_encode JValue.str decodeStr decodeStr_encode,
      decodeList_encode JValue.str decodeStr decodeStr_encode]

theorem decodeConfigFile_encode (b : Bool) :
    decodeConfigFile (encodeConfigFile b) = some b := rfl

theorem decodeEnvironment_encode (e : EnvironmentAnalysis) :
    decodeEnvironment (encodeEnvironment e) = some e := by
  simp only [encodeEnvironment, decodeEnvironment]
  rw [decodePairs_encode encodeConfigFile decodeConfigFile (fun _ => true)
        (fun a _ => decodeConfigFile_encode a) e.config_files (by simp)]

theorem decodeAnalysisResult_encode (r : AnalysisResult)
    (h : stringKeyedResult r = true) :
    decodeAnalysisResult (encodeAnalysisResult r) = some r := by
  simp only [encodeAnalysisResult, decodeAnalysisResult]
  rw [decodePairs_encode encodeCompose decodeCompose stringKeyedCompose
        decodeCompose_encode r.compose_files (by simpa [stringKeyedResult] using h),
      decodePairs_encode encodeDockerfile decodeDockerfile (fun _ => true)
        (fun a _ => decodeDockerfile_encode a) r.dockerfiles (by simp),
      decodeMonitoring_encode, decodeSecurity_encode,
      decodeList_encode JValue.str decodeStr decodeStr_encode,
      decodeList_encode JValue.str decodeStr decodeStr_encode,
      decodeEnvironment_encode]

/-- A project whose only compose file is legal YAML with an integer service
name: `services: {8080: {image: x}}`. The run completes normally and stores
the int key in the aggregate. -/
def intKeyProject : ProjectState :=
  { emptyProject with
      composeFile := fun f =>
        if f = "docker-compose.yml" then
          some (.ok (.obj [(.str "services",
            .obj [(.int 8080, .obj [(.str "image", .str "x")])])]))
        else none }

/-- The service-name keys of each compose entry of an optional aggregate. -/
def serviceKeysOf (o : Option AnalysisResult) : Option (List (List JKey)) :=
  o.map (fun r => r.compose_files.map (fun p => p.2.services.map Prod.fst))

/-- C8 (counterexample): a run that completes on the int-service-name compose
file carries the key `8080` (an int) in its aggregate, but `json.dump`
stringifies it, so `json.load` returns the key `"8080"` and the round trip
is not the identity on this run's result. -/
theorem json_round_trip_fails_on_int_service_key :
    serviceKeysOf (some (analyze intKeyProject)) = some [[JKey.int 8080]] ∧
    serviceKeysOf (decodeAnalysisResult (encodeAnalysisResult (analyze intKeyProject))) =
      some [[JKey.str "8080"]] ∧
    decodeAnalysisResult (encodeAnalysisResult (analyze intKeyProject)) ≠
      some (analyze intKeyProject) := by
  refine ⟨by decide, by decide, fun h => ?_⟩
  have h2 := congrArg serviceKeysOf h
  revert h2
  decide

/-- C8 (amended): dump-then-load is the identity on the aggregate of every
run whose aggregate is string-keyed - that is, whenever the YAML inputs put
no non-string mapping key (int, bool or null service names or nested dict
keys) into it; `json.dump` stringifies such keys, which is exactly how the
identity fails (float NaN values, outside this embedding, break it too).
The text layer of `json.dump`/`json.load` is the standard library; modelled
here is its value mapping including the key stringification. -/
theorem analysis_results_json_round_trip (fs : ProjectState)
    (h : stringKeyedResult (analyze fs) = true) :
    decodeAnalysisResult (encodeAnalysisResult (analyze fs)) = some (analyze fs) ∧
    (∀ r : AnalysisResult, stringKeyedResult r = true →
      decodeAnalysisResult (encodeAnalysisResult r) = some r) :=
  ⟨decodeAnalysisResult_encode (analyze fs) h, decodeAnalysisResult_encode⟩

/-- A project whose only compose file is the ordinary string-keyed
`services: {web: {image: x}}`. -/
def strKeyProject : ProjectState :=
  { emptyProject with
      composeFile := fun f =>
        if f = "docker-compose.yml" then
          some (.ok (.obj [(.str "services",
            .obj [(.str "web", .obj [(.str "image", .str "x")])])]))
        else none }

/-- Witness for C8's amended theorem at a project with a real string-keyed
compose entry: the hypothesis holds and the round trip is the identity. -/
theorem analysis_results_json_round_trip_witness :
    decodeAnalysisResult (encodeAnalysisResult (analyze strKeyProject)) =
      some (analyze strKeyProject) :=
  (analysis_results_json_round_trip strKeyProject (by decide)).1
